import Mathlib

/-!
# Verification of the basketball physics and scoring state machine

Shallow embedding of `src/components/Basketball.js` and `src/ui/Score.js`.

Conventions of the embedding:
* JavaScript numbers are modelled by `ℚ` (all the operations the scoring and
  physics state machine performs on them are field operations and comparisons;
  decimal literals such as `14.8` are exact in `ℚ`).  `Date.now()` timestamps
  (milliseconds) are modelled by `ℤ`.
* Comparisons of the form `Math.sqrt e < c` with `e, c ≥ 0` are embedded as
  `e < c * c`, which is equivalent over the reals and keeps the definitions
  executable over `ℚ`.
* The rotation update (`_updateRotation`), whose values are genuinely
  irrational (`Math.hypot`, `Math.PI`), is embedded separately over `ℝ`.
* The dynamically imported score module calls (`_addScore`, `addShotAttempt`,
  `showShotMissed`) are modelled as events emitted by the ball-state step
  function; the score model itself is a separate state machine driven by
  those events.
-/

namespace Basketball

/-! ## Constants (`Basketball.js`, top of file) -/

def BALL_RADIUS : ℚ := 0.12
def BALL_COURT_MOVEMENT_SPEED : ℚ := 0.05
/-- Source constant `COURT_BOUNDARIES.x`. -/
def COURT_BOUNDARY_X : ℚ := 14.8
/-- Source constant `COURT_BOUNDARIES.z`. -/
def COURT_BOUNDARY_Z : ℚ := 7.3
def GRAVITY : ℚ := -9.8
/-- Source constant `DT = 1 / FRAME_RATE` with `FRAME_RATE = 60`. -/
def DT : ℚ := 1 / 60
def BALL_BOUNCINESS : ℚ := 0.7
def COURT_SURFACE_Y : ℚ := 0.1
def VELOCITY_THRESHOLD : ℚ := 1
def PHYSICS_SPEED_MULTIPLIER : ℚ := 0.8
def BASKET_DETECTION_HEIGHT : ℚ := 3.05
def BASKET_DETECTION_RADIUS : ℚ := 0.25
def BASKET_COOLDOWN_TIME : ℤ := 2000
/-- First entry of `HOOP_X = [15, -15]`. -/
def HOOP_X_POS : ℚ := 15
def HOOP_X_NEG : ℚ := -15

/-! ## Ball state

The fields of the `Basketball` instance that the physics / scoring state
machine reads and writes.  `power`, the key-state set and the rotation state
are not included here: `power` only enters the launch-speed computation, the
key state is passed to the grounded tick as a read-only snapshot (`Keys`),
and the rotation state (which lives in `ℝ`) is handled separately below. -/

structure BallState where
  posX : ℚ
  posY : ℚ
  posZ : ℚ
  velX : ℚ
  velY : ℚ
  velZ : ℚ
  shooting : Bool
  basketDetected : Bool
  shotResultDetermined : Bool
  lastBasketTime : ℤ
deriving DecidableEq, Repr

/-- Snapshot of the arrow-key entries of `this.keyState`. -/
structure Keys where
  arrowUp : Bool
  arrowDown : Bool
  arrowLeft : Bool
  arrowRight : Bool
deriving DecidableEq, Repr

/-- The team credited with a made basket. -/
inductive Team where
  | home
  | away
deriving DecidableEq, Repr

/-- Constructor-time ball state: `BALL_START_POS`, zero velocity,
`lastBasketTime = 0`, `basketDetected = false`,
`shotResultDetermined = false`, not shooting. -/
def initialBallState : BallState :=
  { posX := 0, posY := BALL_RADIUS + 0.1, posZ := 0
    velX := 0, velY := 0, velZ := 0
    shooting := false, basketDetected := false, shotResultDetermined := false
    lastBasketTime := 0 }

/-! ## Physics step functions (`Basketball.js`) -/

/-- First half of `_updateShootingPhysics`: position integration followed by
gravity on `velocity.y`. -/
def integrateFlight (s : BallState) : BallState :=
  let s1 := { s with
    posX := s.posX + s.velX * DT * PHYSICS_SPEED_MULTIPLIER
    posY := s.posY + s.velY * DT * PHYSICS_SPEED_MULTIPLIER
    posZ := s.posZ + s.velZ * DT * PHYSICS_SPEED_MULTIPLIER }
  { s1 with velY := s1.velY + GRAVITY * DT }

/-- The body of the `for (const hoopX of HOOP_X)` loop of `_checkBasket`,
for one hoop.  Returns the updated state and the scoring team if a basket
fired at this hoop.  The source compares
`Math.sqrt(dx*dx + dz*dz) < BASKET_DETECTION_RADIUS`; we compare the squares.
`isHomeHoop = hoopX > 0` scores for the away team, otherwise home. -/
def checkBasketHoop (time : ℤ) (hoopX : ℚ) (s : BallState) :
    BallState × Option Team :=
  let dx := s.posX - hoopX
  let dz := s.posZ
  let dy := s.posY - BASKET_DETECTION_HEIGHT
  if dx * dx + dz * dz < BASKET_DETECTION_RADIUS * BASKET_DETECTION_RADIUS ∧
      |dy| < BALL_RADIUS * 1.2 ∧ s.velY < 0 ∧ s.basketDetected = false then
    ({ s with
        basketDetected := true
        shotResultDetermined := true
        lastBasketTime := time
        velX := (hoopX - s.posX) * 0.3
        velZ := (0 - s.posZ) * 0.3
        velY := -3 },
     some (if hoopX > 0 then Team.away else Team.home))
  else
    (s, none)

/-- Source method `_checkBasket`.  The cooldown early-return skips both the hoop loop and
the `basketDetected` reset at the bottom of the function. -/
def checkBasket (time : ℤ) (s : BallState) : BallState × Option Team :=
  if time - s.lastBasketTime < BASKET_COOLDOWN_TIME then
    (s, none)
  else
    let r1 := checkBasketHoop time HOOP_X_POS s
    let r2 := checkBasketHoop time HOOP_X_NEG r1.1
    let s3 :=
      if r2.1.posY < BASKET_DETECTION_HEIGHT - BALL_RADIUS * 2 then
        { r2.1 with basketDetected := false }
      else r2.1
    (s3, r1.2 <|> r2.2)

/-- Source method `_isMovingFastEnough`. -/
def isMovingFastEnough (s : BallState) : Prop :=
  VELOCITY_THRESHOLD < |s.velY| ∨ VELOCITY_THRESHOLD < |s.velX| ∨
    VELOCITY_THRESHOLD < |s.velZ|

instance (s : BallState) : Decidable (isMovingFastEnough s) := by
  unfold isMovingFastEnough; infer_instance

/-- Source method `_bounceOffGround`. -/
def bounceOffGround (s : BallState) : BallState :=
  { s with
    velY := -s.velY * BALL_BOUNCINESS
    velX := s.velX * 0.6
    velZ := s.velZ * 0.6 }

/-- Source method `_stopBall`.  The `Bool` result records whether the missed-shot event
(`showShotMissed`, reached through `_showMissedShot`) fired. -/
def stopBall (s : BallState) : BallState × Bool :=
  let s1 := { s with velX := 0, velY := 0, velZ := 0, shooting := false }
  if s1.shotResultDetermined = false then
    ({ s1 with shotResultDetermined := true }, true)
  else
    (s1, false)

/-- Source method `_checkGroundCollision`.  The `Bool` result is the missed-shot event. -/
def checkGroundCollision (s : BallState) : BallState × Bool :=
  if s.posY ≤ COURT_SURFACE_Y + BALL_RADIUS + 0.01 then
    let s1 := { s with posY := COURT_SURFACE_Y + BALL_RADIUS }
    if isMovingFastEnough s1 then
      (bounceOffGround s1, false)
    else
      stopBall s1
  else
    (s, false)

/-- Source method `_updateShootingPhysics`: integrate, then `_checkRimCollision` (a no-op
in the source: the function body is `return;`), then `_checkBasket`, then
`_checkGroundCollision`.  Results: new state, made-basket event, missed
event. -/
def updateShootingPhysics (time : ℤ) (s : BallState) :
    BallState × Option Team × Bool :=
  let s2 := integrateFlight s
  let bc := checkBasket time s2
  let gc := checkGroundCollision bc.1
  (gc.1, bc.2, gc.2)

/-- Source method `_updateMovementOnCourt`: zero horizontal velocity, apply held arrow
keys, then clamp the position to the court boundaries. -/
def updateMovementOnCourt (k : Keys) (s : BallState) : BallState :=
  let s0 := { s with velX := 0, velZ := 0 }
  let s1 := if k.arrowUp then
      { s0 with posZ := s0.posZ - BALL_COURT_MOVEMENT_SPEED
                velZ := -BALL_COURT_MOVEMENT_SPEED } else s0
  let s2 := if k.arrowDown then
      { s1 with posZ := s1.posZ + BALL_COURT_MOVEMENT_SPEED
                velZ := BALL_COURT_MOVEMENT_SPEED } else s1
  let s3 := if k.arrowLeft then
      { s2 with posX := s2.posX - BALL_COURT_MOVEMENT_SPEED
                velX := -BALL_COURT_MOVEMENT_SPEED } else s2
  let s4 := if k.arrowRight then
      { s3 with posX := s3.posX + BALL_COURT_MOVEMENT_SPEED
                velX := BALL_COURT_MOVEMENT_SPEED } else s3
  { s4 with
    posX := max (-COURT_BOUNDARY_X) (min COURT_BOUNDARY_X s4.posX)
    posZ := max (-COURT_BOUNDARY_Z) (min COURT_BOUNDARY_Z s4.posZ) }

/-- Source method `update`, the per-frame tick (rotation and power-bar rendering are
handled elsewhere). -/
def update (k : Keys) (time : ℤ) (s : BallState) :
    BallState × Option Team × Bool :=
  if s.shooting then updateShootingPhysics time s
  else (updateMovementOnCourt k s, none, false)

/-- Source method `_resetPosition` (the `r` key): back to `BALL_START_POS`, zero velocity,
`shooting = false`.  Neither `shotResultDetermined` nor the score state is
touched. -/
def resetPosition (s : BallState) : BallState :=
  { s with
    posX := 0, posY := BALL_RADIUS + 0.1, posZ := 0
    velX := 0, velY := 0, velZ := 0
    shooting := false }

/-! ## The shot (`_shootTowardNearestHoop`)

The launch-velocity components involve `Math.cos` / `Math.sin` of the launch
angle and are irrational; what the claims need is the target-hoop selection
and the launch-angle selection, which are exact over `ℚ`.  The launch angle
is `Math.PI / 2.5` or `Math.PI / 2.9`; we represent it by its ratio to
`Math.PI` (so `1 / 2.5` or `1 / 2.9`), from which the angle in degrees is the
ratio times `180`. -/

/-- Source expression `targetX = Math.abs(ballX - HOOP_X[0]) < Math.abs(ballX - HOOP_X[1]) ?
HOOP_X[0] : HOOP_X[1]`. -/
def nearestHoopX (ballX : ℚ) : ℚ :=
  if |ballX - HOOP_X_POS| < |ballX - HOOP_X_NEG| then HOOP_X_POS else HOOP_X_NEG

/-- Squared horizontal distance `dx*dx + dz*dz` toward the selected hoop (the source takes
`distXZ = Math.sqrt` of this and compares `distXZ < 5`; we compare the
square with `25`). -/
def launchDistSq (ballX ballZ : ℚ) : ℚ :=
  let dx := nearestHoopX ballX - ballX
  let dz := 0 - ballZ
  dx * dx + dz * dz

/-- The launch angle divided by `Math.PI`: the source sets
`angle = Math.PI / 2.5` when `distXZ < 5` and `angle = Math.PI / 2.9`
otherwise. -/
def launchAngleOverPi (ballX ballZ : ℚ) : ℚ :=
  if launchDistSq ballX ballZ < 25 then 1 / 2.5 else 1 / 2.9

/-- The launch angle in degrees (`angle / π * 180`). -/
def launchAngleDegrees (ballX ballZ : ℚ) : ℚ :=
  launchAngleOverPi ballX ballZ * 180

/-- The state effect of `_shootTowardNearestHoop`, with the (irrational)
launch-velocity components passed in as parameters.  Fires only from the
keydown handler when `!this.shooting`. -/
def shootStep (vx vy vz : ℚ) (s : BallState) : BallState :=
  { s with
    velX := vx, velY := vy, velZ := vz
    shooting := true
    shotResultDetermined := false }

/-! ## Event-level traces

The inputs the ball state machine consumes during play: animation-loop ticks
(carrying the `Date.now()` timestamp read inside `_checkBasket`), the `r`
key (`_resetPosition`), and the space key (`_shootTowardNearestHoop`, ignored
while `this.shooting`). -/

inductive Ev where
  | tick : Keys → ℤ → Ev
  | resetBall : Ev
  | shoot : ℚ → ℚ → ℚ → Ev
deriving DecidableEq, Repr

def Ev.isTick : Ev → Bool
  | .tick _ _ => true
  | _ => false

/-- One input event applied to the ball state. -/
def stepEv (s : BallState) : Ev → BallState
  | .tick k t => (update k t s).1
  | .resetBall => resetPosition s
  | .shoot vx vy vz => if s.shooting then s else shootStep vx vy vz s

/-- Run a list of input events. -/
def runEv (s : BallState) (evs : List Ev) : BallState :=
  evs.foldl stepEv s

/-- Number of events at which `shotResultDetermined` transitions from
`false` to `true`. -/
def flagFlips (s : BallState) : List Ev → ℕ
  | [] => 0
  | e :: rest =>
      (if s.shotResultDetermined = false ∧
          (stepEv s e).shotResultDetermined = true then 1 else 0)
        + flagFlips (stepEv s e) rest

/-- The made-basket event fired by one input, together with its wall-clock
time (only ticks can fire a basket). -/
def evMadeTime (s : BallState) : Ev → Option ℤ
  | .tick k t => if ((update k t s).2.1).isSome then some t else none
  | _ => none

/-- The wall-clock times of all made-basket events along a run, in order. -/
def fireTimes (s : BallState) : List Ev → List ℤ
  | [] => []
  | e :: rest => (evMadeTime s e).toList ++ fireTimes (stepEv s e) rest

end Basketball

namespace Score

/-! ## Score model (`Score.js`)

The four module-level counters and the exported mutators.  Display calls
(`updateScoreDisplay`, `showShotMade`, `showShotMissed`) only touch the DOM
and are dropped.  `showShotMissed` in particular changes no counter, so a
missed shot is not a score operation. -/

structure ScoreState where
  homeScore : ℤ
  awayScore : ℤ
  totalShotsAttempted : ℤ
  totalShotsMade : ℤ
deriving DecidableEq, Repr

def initialScore : ScoreState := ⟨0, 0, 0, 0⟩

/-- Source function `addShotAttempt`. -/
def addShotAttempt (s : ScoreState) : ScoreState :=
  { s with totalShotsAttempted := s.totalShotsAttempted + 1 }

/-- Source function `addShotMade`. -/
def addShotMade (s : ScoreState) : ScoreState :=
  { s with totalShotsMade := s.totalShotsMade + 1 }

/-- Source function `addHomeScore(points)`: bump the home score, then `addShotMade()`. -/
def addHomeScore (points : ℤ) (s : ScoreState) : ScoreState :=
  addShotMade { s with homeScore := s.homeScore + points }

/-- Source function `addAwayScore(points)`. -/
def addAwayScore (points : ℤ) (s : ScoreState) : ScoreState :=
  addShotMade { s with awayScore := s.awayScore + points }

/-- Source function `resetScore`. -/
def resetScore (_ : ScoreState) : ScoreState := ⟨0, 0, 0, 0⟩

/-- Source function `getShotAccuracy` returns
`totalShotsAttempted > 0 ? ((totalShotsMade / totalShotsAttempted) * 100).toFixed(1) : '0.0'`;
we model the numeric value before the one-decimal display formatting. -/
def getShotAccuracy (s : ScoreState) : ℚ :=
  if 0 < s.totalShotsAttempted then
    ((s.totalShotsMade : ℚ) / (s.totalShotsAttempted : ℚ)) * 100
  else 0

/-- The score operations the game invokes: `addShotAttempt()` from
`_shootTowardNearestHoop`, `addHomeScore(2)` / `addAwayScore(2)` from
`_addScore`, and `resetScore()` from the `t` key. -/
inductive GameOp where
  | attempt
  | madeHome
  | madeAway
  | reset
deriving DecidableEq, Repr

def applyOp (s : ScoreState) : GameOp → ScoreState
  | .attempt => addShotAttempt s
  | .madeHome => addHomeScore 2 s
  | .madeAway => addAwayScore 2 s
  | .reset => resetScore s

/-- The score state reached from startup by a sequence of game operations. -/
def runScore (ops : List GameOp) : ScoreState :=
  ops.foldl applyOp initialScore

/-- The `_addScore(team)` dispatch: home baskets call `addHomeScore(2)`,
away baskets `addAwayScore(2)`. -/
def teamOp : Basketball.Team → GameOp
  | .home => .madeHome
  | .away => .madeAway

/-- The operations since the most recent `reset` (the whole list when no
reset occurred). -/
def sinceLastReset (ops : List GameOp) : List GameOp :=
  ops.foldl (fun acc op => match op with
    | .reset => []
    | _ => acc ++ [op]) []

def isMadeOp : GameOp → Bool
  | .madeHome => true
  | .madeAway => true
  | _ => false

def isAttemptOp : GameOp → Bool
  | .attempt => true
  | _ => false

def countMade (ops : List GameOp) : ℕ := (ops.filter isMadeOp).length

def countAttempt (ops : List GameOp) : ℕ := (ops.filter isAttemptOp).length

end Score

namespace Spin

/-! ## Rotation update (`_updateRotation`), over `ℝ`

`_updateRotation` computes `Math.hypot` and wraps modulo `2 * Math.PI`, so
its values are irrational; it is embedded over `ℝ`.  `THREE.Vector3`
operations are embedded after their library implementations:
`normalize()` is `divideScalar(this.length() || 1)`, so a zero-length vector
is divided by `1` (this `|| 1` guard is what keeps the computation free of
`0 / 0`).  The rotation state feeds only the rendered quaternion; it has no
effect on the `ℚ`-valued ball state above. -/

structure RVec3 where
  x : ℝ
  y : ℝ
  z : ℝ

noncomputable def vlength (v : RVec3) : ℝ :=
  Real.sqrt (v.x * v.x + v.y * v.y + v.z * v.z)

/-- The scalar `THREE.Vector3.normalize` divides by:
`this.length() || 1`. -/
noncomputable def normDivisor (v : RVec3) : ℝ :=
  if vlength v = 0 then 1 else vlength v

/-- Library method `THREE.Vector3.normalize`. -/
noncomputable def threeNormalize (v : RVec3) : RVec3 :=
  ⟨v.x / normDivisor v, v.y / normDivisor v, v.z / normDivisor v⟩

/-- Library method `THREE.Vector3.crossVectors`. -/
def cross (a b : RVec3) : RVec3 :=
  ⟨a.y * b.z - a.z * b.y, a.z * b.x - a.x * b.z, a.x * b.y - a.y * b.x⟩

/-- JavaScript `%` for a non-negative dividend and positive divisor. -/
noncomputable def jsMod (a b : ℝ) : ℝ := a - b * ⌊a / b⌋

/-- Source method `_updateRotation`: given the current velocity and `this.currentRotation`,
produce the new `this.rotationAxis` and `this.currentRotation`.
`speed = Math.hypot(vx, vy, vz)`;
`velDir = new Vector3(vx, vy, vz).normalize()`;
`rotationAxis = new Vector3().crossVectors(velDir, up).normalize()`;
`angularSpeed = (speed / BALL_RADIUS) * PHYSICS_SPEED_MULTIPLIER * DT`;
`currentRotation = (currentRotation + angularSpeed) % (2π)`. -/
noncomputable def updateRotationStep (vel : RVec3) (currentRotation : ℝ) :
    RVec3 × ℝ :=
  let speed := vlength vel
  let velDir := threeNormalize vel
  let up : RVec3 := ⟨0, 1, 0⟩
  let axis := threeNormalize (cross velDir up)
  let angularSpeed := speed / (0.12 : ℝ) * (0.8 : ℝ) * ((1 : ℝ) / 60)
  (axis, jsMod (currentRotation + angularSpeed) (2 * Real.pi))

end Spin

namespace Basketball

/-! ## Concrete states used in witnesses and counterexamples -/

/-- No arrow key held. -/
def noKeys : Keys := ⟨false, false, false, false⟩

/-- An in-flight state about to make ground contact beyond the court
boundary (`posX = 16 > 14.8`), moving slowly enough to stop. -/
def sBeyond : BallState :=
  { posX := 16, posY := 0.23, posZ := 0
    velX := 0.5, velY := -0.5, velZ := 0
    shooting := true, basketDetected := false, shotResultDetermined := false
    lastBasketTime := 0 }

/-- An in-flight state inside the detection window of the hoop at `x = 15`,
moving downward, outside the basket cooldown. -/
def sHoop : BallState :=
  { posX := 15.1, posY := 3.05, posZ := 0
    velX := 0, velY := -1, velZ := 0
    shooting := true, basketDetected := false, shotResultDetermined := false
    lastBasketTime := 0 }

/-- An in-flight state in mid-air with an unresolved shot outcome. -/
def sFly : BallState :=
  { posX := 0, posY := 5, posZ := 0
    velX := 1, velY := 2, velZ := 0
    shooting := true, basketDetected := false, shotResultDetermined := false
    lastBasketTime := 0 }

/-- An in-flight state at rest height: the next tick makes ground contact
below the stop threshold. -/
def sLand : BallState :=
  { posX := 0, posY := 0.22, posZ := 0
    velX := 0, velY := 0, velZ := 0
    shooting := true, basketDetected := false, shotResultDetermined := false
    lastBasketTime := 0 }

/-- An in-flight state at ground-contact height moving fast enough to
bounce. -/
def sBounce : BallState :=
  { posX := 0, posY := 0.22, posZ := 0
    velX := 2, velY := -2, velZ := 0
    shooting := true, basketDetected := false, shotResultDetermined := false
    lastBasketTime := 0 }

end Basketball




/-! ## Theorems -/

section Theorems

open Basketball Score

/-- Generic preservation of an invariant along a left fold. -/
lemma foldl_invariant {α β : Type} (f : β → α → β) (P : β → Prop)
    (step : ∀ b a, P b → P (f b a)) :
    ∀ (l : List α) (b : β), P b → P (l.foldl f b) := by
  intro l
  induction l with
  | nil => intro b h; exact h
  | cons a rest ih => intro b h; exact ih (f b a) (step b a h)

/-- Characterization of the score counters: each equals the number of
corresponding operations since the last reset. -/
lemma runScore_counts (ops : List Score.GameOp) :
    (Score.runScore ops).totalShotsAttempted =
        (Score.countAttempt (Score.sinceLastReset ops) : ℤ) ∧
      (Score.runScore ops).totalShotsMade =
        (Score.countMade (Score.sinceLastReset ops) : ℤ) := by
  induction ops using List.reverseRecOn with
  | nil => simp [Score.runScore, Score.sinceLastReset, Score.countAttempt,
      Score.countMade, Score.initialScore]
  | append_singleton l op ih =>
    cases op <;>
      simp_all [Score.runScore, List.foldl_append, Score.sinceLastReset,
        Score.applyOp, Score.addShotAttempt, Score.addHomeScore,
        Score.addAwayScore, Score.addShotMade, Score.resetScore,
        Score.countAttempt, Score.countMade, List.filter_append,
        Score.isMadeOp, Score.isAttemptOp]

/-- C10: in every ScoreModel state reachable through the operations the game
actually invokes (`addShotAttempt`, `addHomeScore(2)`, `addAwayScore(2)`,
`resetScore`), `homeScore + awayScore = 2 * shotsMade`. -/
theorem C10_score_equals_twice_made (ops : List Score.GameOp) :
    (Score.runScore ops).homeScore + (Score.runScore ops).awayScore =
      2 * (Score.runScore ops).totalShotsMade := by
  have := foldl_invariant Score.applyOp
    (fun s => s.homeScore + s.awayScore = 2 * s.totalShotsMade)
    (by
      intro s op h
      cases op <;>
        simp_all [Score.applyOp, Score.addShotAttempt, Score.addHomeScore,
          Score.addAwayScore, Score.addShotMade, Score.resetScore] <;>
        omega)
    ops Score.initialScore (by simp [Score.initialScore])
  exact this

/-- C7 counterexample: the game can interleave a score reset between a shot
attempt and that shot's made basket (press `t` while the ball is in flight);
the resulting reachable state has `shotsAttempted = 0 < 1 = shotsMade`,
refuting `shotsAttempted ≥ shotsMade`. -/
theorem C7_reset_mid_flight_counterexample :
    (Score.runScore [.attempt, .reset, .madeAway]).totalShotsAttempted = 0 ∧
      (Score.runScore [.attempt, .reset, .madeAway]).totalShotsMade = 1 ∧
      ¬((Score.runScore [.attempt, .reset, .madeAway]).totalShotsMade ≤
        (Score.runScore [.attempt, .reset, .madeAway]).totalShotsAttempted) := by
  refine ⟨rfl, rfl, ?_⟩
  decide

/-- C7 (amended): all four ScoreModel counters are non-negative in every
reachable state, and `shotsAttempted ≥ shotsMade` holds in every state
reached by an operation sequence in which, among the operations since the
last reset, made baskets do not outnumber shot attempts.  (The game violates
the inequality exactly by resetting the score between a shot attempt and the
same flight's made basket; see the counterexample.) -/
theorem C7_score_invariants_amended :
    (∀ ops : List Score.GameOp,
        0 ≤ (Score.runScore ops).homeScore ∧
        0 ≤ (Score.runScore ops).awayScore ∧
        0 ≤ (Score.runScore ops).totalShotsAttempted ∧
        0 ≤ (Score.runScore ops).totalShotsMade) ∧
      (∀ ops : List Score.GameOp,
        Score.countMade (Score.sinceLastReset ops) ≤
            Score.countAttempt (Score.sinceLastReset ops) →
          (Score.runScore ops).totalShotsMade ≤
            (Score.runScore ops).totalShotsAttempted) := by
  constructor
  · intro ops
    exact foldl_invariant Score.applyOp
      (fun s => 0 ≤ s.homeScore ∧ 0 ≤ s.awayScore ∧
        0 ≤ s.totalShotsAttempted ∧ 0 ≤ s.totalShotsMade)
      (by
        intro s op h
        cases op <;>
          simp_all [Score.applyOp, Score.addShotAttempt, Score.addHomeScore,
            Score.addAwayScore, Score.addShotMade, Score.resetScore] <;>
          omega)
      ops Score.initialScore (by simp [Score.initialScore])
  · intro ops h
    obtain ⟨ha, hm⟩ := runScore_counts ops
    rw [ha, hm]
    exact_mod_cast h

/-- C7 witness: a normal attempt-then-make sequence satisfies the count
hypothesis and the invariant. -/
theorem C7_score_invariants_witness :
    Score.countMade (Score.sinceLastReset [.attempt, .madeHome]) ≤
        Score.countAttempt (Score.sinceLastReset [.attempt, .madeHome]) ∧
      (Score.runScore [.attempt, .madeHome]).totalShotsMade ≤
        (Score.runScore [.attempt, .madeHome]).totalShotsAttempted :=
  ⟨by decide, C7_score_invariants_amended.2 [.attempt, .madeHome] (by decide)⟩

/-- C8 counterexample: with 2 attempts and 1 made shot, `getShotAccuracy`
returns the percentage `50`, not the ratio `shotsMade/shotsAttempted = 1/2`
the claim states. -/
theorem C8_accuracy_is_percentage_counterexample :
    Score.getShotAccuracy ⟨0, 0, 2, 1⟩ = 50 ∧
      ¬(Score.getShotAccuracy ⟨0, 0, 2, 1⟩ =
        ((1 : ℤ) : ℚ) / ((2 : ℤ) : ℚ)) := by
  constructor
  · norm_num [Score.getShotAccuracy]
  · norm_num [Score.getShotAccuracy]

/-- C8 (amended): the accuracy query is total over every ScoreModel state:
it returns `0` when `shotsAttempted ≤ 0` (in particular when it is `0`), and
when `shotsAttempted > 0` the divisor is non-zero (no division by zero) and
the returned value is the percentage `100 * shotsMade / shotsAttempted`
(rather than the bare ratio). -/
theorem C8_accuracy_total_amended (s : Score.ScoreState) :
    (¬0 < s.totalShotsAttempted → Score.getShotAccuracy s = 0) ∧
      (0 < s.totalShotsAttempted →
        ((s.totalShotsAttempted : ℚ) ≠ 0 ∧
          Score.getShotAccuracy s * (s.totalShotsAttempted : ℚ) =
            100 * (s.totalShotsMade : ℚ))) := by
  constructor
  · intro h
    simp [Score.getShotAccuracy, h]
  · intro h
    have hne : (s.totalShotsAttempted : ℚ) ≠ 0 := by
      exact_mod_cast (by omega : s.totalShotsAttempted ≠ 0)
    refine ⟨hne, ?_⟩
    simp only [Score.getShotAccuracy, if_pos h]
    field_simp
    ring

/-- C8 witness: evaluated at 2 attempts and 1 made shot. -/
theorem C8_accuracy_total_witness :
    (0 : ℤ) < (⟨0, 0, 2, 1⟩ : Score.ScoreState).totalShotsAttempted ∧
      Score.getShotAccuracy ⟨0, 0, 2, 1⟩ *
          (((⟨0, 0, 2, 1⟩ : Score.ScoreState).totalShotsAttempted : ℤ) : ℚ) =
        100 * (((⟨0, 0, 2, 1⟩ : Score.ScoreState).totalShotsMade : ℤ) : ℚ) :=
  ⟨by decide, ((C8_accuracy_total_amended ⟨0, 0, 2, 1⟩).2 (by decide)).2⟩


lemma checkBasketHoop_cases (t : ℤ) (hx : ℚ) (s : Basketball.BallState) :
    Basketball.checkBasketHoop t hx s = (s, none) ∨
      Basketball.checkBasketHoop t hx s =
        ({ s with
            basketDetected := true,
            shotResultDetermined := true,
            lastBasketTime := t,
            velX := (hx - s.posX) * 0.3,
            velZ := (0 - s.posZ) * 0.3,
            velY := -3 },
         some (if hx > 0 then Team.away else Team.home)) := by
  unfold Basketball.checkBasketHoop
  dsimp only
  split
  · right; rfl
  · left; rfl

lemma checkBasket_eq (t : ℤ) (s : Basketball.BallState) :
    Basketball.checkBasket t s =
      if t - s.lastBasketTime < Basketball.BASKET_COOLDOWN_TIME then (s, none)
      else
        (if (Basketball.checkBasketHoop t Basketball.HOOP_X_NEG
              (Basketball.checkBasketHoop t Basketball.HOOP_X_POS s).1).1.posY <
            Basketball.BASKET_DETECTION_HEIGHT - Basketball.BALL_RADIUS * 2 then
          { (Basketball.checkBasketHoop t Basketball.HOOP_X_NEG
              (Basketball.checkBasketHoop t Basketball.HOOP_X_POS s).1).1 with
            basketDetected := false }
         else
          (Basketball.checkBasketHoop t Basketball.HOOP_X_NEG
            (Basketball.checkBasketHoop t Basketball.HOOP_X_POS s).1).1,
         (Basketball.checkBasketHoop t Basketball.HOOP_X_POS s).2 <|>
           (Basketball.checkBasketHoop t Basketball.HOOP_X_NEG
             (Basketball.checkBasketHoop t Basketball.HOOP_X_POS s).1).2) := rfl

/-- Master helper describing what one `_checkBasket` pass does to the state:
it never moves the ball or changes `shooting`; when no basket fires it leaves
velocity, `shotResultDetermined` and `lastBasketTime` unchanged; when a
basket fires it sets `shotResultDetermined`, records the cooldown timestamp,
and the cooldown had expired; and it never clears `shotResultDetermined`. -/
lemma checkBasket_shape (t : ℤ) (s : Basketball.BallState) :
    (Basketball.checkBasket t s).1.posX = s.posX ∧
      (Basketball.checkBasket t s).1.posY = s.posY ∧
      (Basketball.checkBasket t s).1.posZ = s.posZ ∧
      (Basketball.checkBasket t s).1.shooting = s.shooting ∧
      ((Basketball.checkBasket t s).2 = none →
        (Basketball.checkBasket t s).1.velX = s.velX ∧
          (Basketball.checkBasket t s).1.velY = s.velY ∧
          (Basketball.checkBasket t s).1.velZ = s.velZ ∧
          (Basketball.checkBasket t s).1.shotResultDetermined =
            s.shotResultDetermined ∧
          (Basketball.checkBasket t s).1.lastBasketTime = s.lastBasketTime) ∧
      (∀ tm, (Basketball.checkBasket t s).2 = some tm →
        (Basketball.checkBasket t s).1.shotResultDetermined = true ∧
          (Basketball.checkBasket t s).1.lastBasketTime = t ∧
          s.lastBasketTime + Basketball.BASKET_COOLDOWN_TIME ≤ t) ∧
      (s.shotResultDetermined = true →
        (Basketball.checkBasket t s).1.shotResultDetermined = true) := by
  rw [checkBasket_eq]
  by_cases hcd : t - s.lastBasketTime < Basketball.BASKET_COOLDOWN_TIME
  · rw [if_pos hcd]
    simp
  · rw [if_neg hcd]
    rcases checkBasketHoop_cases t Basketball.HOOP_X_POS s with h1 | h1 <;>
      rw [h1] <;> dsimp only <;>
      [rcases checkBasketHoop_cases t Basketball.HOOP_X_NEG s with h2 | h2;
       rcases checkBasketHoop_cases t Basketball.HOOP_X_NEG
         ({ s with
             basketDetected := true,
             shotResultDetermined := true,
             lastBasketTime := t,
             velX := (Basketball.HOOP_X_POS - s.posX) * 0.3,
             velZ := (0 - s.posZ) * 0.3,
             velY := -3 }) with h2 | h2] <;>
      rw [h2] <;> dsimp only <;> split <;> simp_all <;> omega

/-- Master helper describing `_checkGroundCollision`: above the contact
height it does nothing; at contact it clamps `posY` and either bounces (fast)
or stops the ball (slow), and the missed-shot event fires exactly on a stop
with an unresolved outcome. -/
lemma checkGroundCollision_shape (s : Basketball.BallState) :
    (¬s.posY ≤ Basketball.COURT_SURFACE_Y + Basketball.BALL_RADIUS + 0.01 →
      Basketball.checkGroundCollision s = (s, false)) ∧
    (s.posY ≤ Basketball.COURT_SURFACE_Y + Basketball.BALL_RADIUS + 0.01 →
      (Basketball.checkGroundCollision s).1.posY =
          Basketball.COURT_SURFACE_Y + Basketball.BALL_RADIUS ∧
        (Basketball.isMovingFastEnough s →
          (Basketball.checkGroundCollision s).1.velY =
              -s.velY * Basketball.BALL_BOUNCINESS ∧
            (Basketball.checkGroundCollision s).1.velX = s.velX * 0.6 ∧
            (Basketball.checkGroundCollision s).1.velZ = s.velZ * 0.6 ∧
            (Basketball.checkGroundCollision s).1.shooting = s.shooting ∧
            (Basketball.checkGroundCollision s).2 = false) ∧
        (¬Basketball.isMovingFastEnough s →
          (Basketball.checkGroundCollision s).1.velX = 0 ∧
            (Basketball.checkGroundCollision s).1.velY = 0 ∧
            (Basketball.checkGroundCollision s).1.velZ = 0 ∧
            (Basketball.checkGroundCollision s).1.shooting = false ∧
            (Basketball.checkGroundCollision s).1.shotResultDetermined = true ∧
            ((Basketball.checkGroundCollision s).2 = true ↔
              s.shotResultDetermined = false))) ∧
    (Basketball.checkGroundCollision s).1.lastBasketTime = s.lastBasketTime ∧
    (Basketball.checkGroundCollision s).1.posX = s.posX ∧
    (Basketball.checkGroundCollision s).1.posZ = s.posZ ∧
    (s.shotResultDetermined = true →
      (Basketball.checkGroundCollision s).1.shotResultDetermined = true) ∧
    ((Basketball.checkGroundCollision s).1.shooting = false → s.shooting = true →
      (Basketball.checkGroundCollision s).1.shotResultDetermined = true) ∧
    ((Basketball.checkGroundCollision s).2 = true →
      s.shotResultDetermined = false) := by
  unfold Basketball.checkGroundCollision Basketball.bounceOffGround
    Basketball.stopBall
  dsimp only
  split
  · split
    · simp_all [Basketball.isMovingFastEnough]
    · split <;> simp_all [Basketball.isMovingFastEnough]
  · simp_all

/-- Helper: the in-flight tick is the composition integrate, basket check,
ground check. -/
lemma update_flight_eq (k : Keys) (t : ℤ) (s : Basketball.BallState)
    (h : s.shooting = true) :
    Basketball.update k t s =
      ((Basketball.checkGroundCollision
          (Basketball.checkBasket t (Basketball.integrateFlight s)).1).1,
       (Basketball.checkBasket t (Basketball.integrateFlight s)).2,
       (Basketball.checkGroundCollision
          (Basketball.checkBasket t (Basketball.integrateFlight s)).1).2) := by
  simp [Basketball.update, h, Basketball.updateShootingPhysics]

/-- Helper: the grounded tick only moves the ball on the court. -/
lemma update_grounded_eq (k : Keys) (t : ℤ) (s : Basketball.BallState)
    (h : s.shooting = false) :
    Basketball.update k t s = (Basketball.updateMovementOnCourt k s, none, false) := by
  simp [Basketball.update, h]

/-- Helper: field-by-field description of the flight integration step. -/
lemma integrateFlight_fields (s : Basketball.BallState) :
    (Basketball.integrateFlight s).posX =
        s.posX + s.velX * Basketball.DT * Basketball.PHYSICS_SPEED_MULTIPLIER ∧
      (Basketball.integrateFlight s).posY =
        s.posY + s.velY * Basketball.DT * Basketball.PHYSICS_SPEED_MULTIPLIER ∧
      (Basketball.integrateFlight s).posZ =
        s.posZ + s.velZ * Basketball.DT * Basketball.PHYSICS_SPEED_MULTIPLIER ∧
      (Basketball.integrateFlight s).velX = s.velX ∧
      (Basketball.integrateFlight s).velY = s.velY + Basketball.GRAVITY * Basketball.DT ∧
      (Basketball.integrateFlight s).velZ = s.velZ ∧
      (Basketball.integrateFlight s).shooting = s.shooting ∧
      (Basketball.integrateFlight s).basketDetected = s.basketDetected ∧
      (Basketball.integrateFlight s).shotResultDetermined = s.shotResultDetermined ∧
      (Basketball.integrateFlight s).lastBasketTime = s.lastBasketTime :=
  ⟨rfl, rfl, rfl, rfl, rfl, rfl, rfl, rfl, rfl, rfl⟩

/-- Master helper describing the grounded movement tick: it can only change
the position and horizontal velocity, and the resulting position is clamped
to the court boundaries. -/
lemma updateMovementOnCourt_shape (k : Basketball.Keys) (s : Basketball.BallState) :
    (Basketball.updateMovementOnCourt k s).shooting = s.shooting ∧
      (Basketball.updateMovementOnCourt k s).shotResultDetermined =
        s.shotResultDetermined ∧
      (Basketball.updateMovementOnCourt k s).basketDetected = s.basketDetected ∧
      (Basketball.updateMovementOnCourt k s).lastBasketTime = s.lastBasketTime ∧
      -Basketball.COURT_BOUNDARY_X ≤ (Basketball.updateMovementOnCourt k s).posX ∧
      (Basketball.updateMovementOnCourt k s).posX ≤ Basketball.COURT_BOUNDARY_X ∧
      -Basketball.COURT_BOUNDARY_Z ≤ (Basketball.updateMovementOnCourt k s).posZ ∧
      (Basketball.updateMovementOnCourt k s).posZ ≤ Basketball.COURT_BOUNDARY_Z := by
  unfold Basketball.updateMovementOnCourt
  dsimp only
  refine ⟨?_, ?_, ?_, ?_, le_max_left _ _,
    max_le (by norm_num [Basketball.COURT_BOUNDARY_X]) (min_le_left _ _),
    le_max_left _ _,
    max_le (by norm_num [Basketball.COURT_BOUNDARY_Z]) (min_le_left _ _)⟩ <;>
    (split <;> split <;> split <;> split <;> rfl)

/-- Master helper describing one full `update()` tick: the shot-outcome flag
is never cleared; a grounded tick stays grounded and fires no event; a tick
that ends the flight leaves the flag set; `lastBasketTime` moves to the tick
time exactly when a basket fires (after the cooldown expired); and no tick
fires both a made-basket and a missed-shot event. -/
lemma tick_shape (k : Basketball.Keys) (t : ℤ) (s : Basketball.BallState) :
    (s.shotResultDetermined = true →
      (Basketball.update k t s).1.shotResultDetermined = true) ∧
    (s.shooting = false →
      (Basketball.update k t s).1.shooting = false ∧
        (Basketball.update k t s).1.shotResultDetermined =
          s.shotResultDetermined ∧
        (Basketball.update k t s).2.1 = none ∧
        (Basketball.update k t s).2.2 = false) ∧
    (s.shooting = true → (Basketball.update k t s).1.shooting = false →
      (Basketball.update k t s).1.shotResultDetermined = true) ∧
    ((Basketball.update k t s).2.1 = none →
      (Basketball.update k t s).1.lastBasketTime = s.lastBasketTime) ∧
    (∀ tm, (Basketball.update k t s).2.1 = some tm →
      (Basketball.update k t s).1.lastBasketTime = t ∧
        s.lastBasketTime + Basketball.BASKET_COOLDOWN_TIME ≤ t) ∧
    ¬(((Basketball.update k t s).2.1).isSome = true ∧
      (Basketball.update k t s).2.2 = true) := by
  cases hsh : s.shooting with
  | false =>
    rw [update_grounded_eq k t s hsh]
    obtain ⟨h1, h2, _, h4, _⟩ := updateMovementOnCourt_shape k s
    refine ⟨?_, ?_, ?_, ?_, ?_, ?_⟩ <;> simp_all
  | true =>
    rw [update_flight_eq k t s hsh]
    obtain ⟨-, -, -, -, -, -, hifsh, -, hiffl, hiflbt⟩ := integrateFlight_fields s
    obtain ⟨-, -, -, hcbsh, hcbnone, hcbsome, hcbmono⟩ :=
      checkBasket_shape t (Basketball.integrateFlight s)
    obtain ⟨-, -, hglbt, -, -, hgmono, hgstop, hgmiss⟩ :=
      checkGroundCollision_shape
        (Basketball.checkBasket t (Basketball.integrateFlight s)).1
    refine ⟨?_, ?_, ?_, ?_, ?_, ?_⟩
    · intro hf
      exact hgmono (hcbmono (hiffl.trans hf))
    · intro h
      exact Bool.noConfusion h
    · intro _ hstop
      exact hgstop hstop (by rw [hcbsh, hifsh, hsh])
    · intro hnone
      rw [hglbt, (hcbnone hnone).2.2.2.2, hiflbt]
    · intro tm hsome
      obtain ⟨-, hlbt, hcool⟩ := hcbsome tm hsome
      constructor
      · rw [hglbt, hlbt]
      · rw [hiflbt] at hcool
        exact hcool
    · rintro ⟨hm, hmiss⟩
      obtain ⟨tm, htm⟩ := Option.isSome_iff_exists.mp hm
      have hfl := (hcbsome tm htm).1
      have h0 := hgmiss hmiss
      rw [h0] at hfl
      exact Bool.noConfusion hfl

/-- C2 counterexample: at the tick on which the ball stops
(InFlight-to-Grounded transition, `_stopBall`), the position is not clamped:
from the reachable in-flight state `sBeyond` (`posX = 16`, slow, at contact
height) the tick ends Grounded with `posX > 14.8`. -/
theorem C2_stop_tick_out_of_bounds_counterexample :
    Basketball.sBeyond.shooting = true ∧
      (Basketball.update Basketball.noKeys 0 Basketball.sBeyond).1.shooting = false ∧
      ¬((Basketball.update Basketball.noKeys 0 Basketball.sBeyond).1.posX ≤
        Basketball.COURT_BOUNDARY_X) := by
  refine ⟨rfl, ?_, ?_⟩ <;>
    norm_num [abs_of_pos, abs_of_nonneg, Basketball.sBeyond, Basketball.update, Basketball.updateShootingPhysics,
      Basketball.integrateFlight, Basketball.checkBasket,
      Basketball.checkBasketHoop, Basketball.checkGroundCollision,
      Basketball.isMovingFastEnough, Basketball.bounceOffGround,
      Basketball.stopBall, Basketball.updateMovementOnCourt,
      Basketball.noKeys, Basketball.BALL_RADIUS, Basketball.COURT_SURFACE_Y,
      Basketball.COURT_BOUNDARY_X, Basketball.COURT_BOUNDARY_Z,
      Basketball.VELOCITY_THRESHOLD, Basketball.PHYSICS_SPEED_MULTIPLIER,
      Basketball.GRAVITY, Basketball.DT, Basketball.BASKET_COOLDOWN_TIME,
      Basketball.BASKET_DETECTION_HEIGHT, Basketball.BASKET_DETECTION_RADIUS,
      Basketball.HOOP_X_POS, Basketball.HOOP_X_NEG, Basketball.BALL_BOUNCINESS,
      Basketball.BALL_COURT_MOVEMENT_SPEED]

/-- C2 (amended): after every Grounded tick the position lies within
`[-14.8, 14.8] × [-7.3, 7.3]` (the clamp runs on every Grounded tick, held
keys or not); however at the instant of an InFlight-to-Grounded transition
the position can lie outside the bounds, since `_stopBall` does not clamp
it (see the counterexample); the bound is re-established by the next
Grounded tick. -/
theorem C2_grounded_bounds_amended (k : Basketball.Keys) (t : ℤ)
    (s : Basketball.BallState) (h : s.shooting = false) :
    -Basketball.COURT_BOUNDARY_X ≤ (Basketball.update k t s).1.posX ∧
      (Basketball.update k t s).1.posX ≤ Basketball.COURT_BOUNDARY_X ∧
      -Basketball.COURT_BOUNDARY_Z ≤ (Basketball.update k t s).1.posZ ∧
      (Basketball.update k t s).1.posZ ≤ Basketball.COURT_BOUNDARY_Z := by
  rw [update_grounded_eq k t s h]
  obtain ⟨-, -, -, -, h5, h6, h7, h8⟩ := updateMovementOnCourt_shape k s
  exact ⟨h5, h6, h7, h8⟩

/-- C2 witness: one grounded tick from the start state stays in bounds. -/
theorem C2_grounded_bounds_witness :
    Basketball.initialBallState.shooting = false ∧
      (Basketball.update Basketball.noKeys 0 Basketball.initialBallState).1.posX ≤
        Basketball.COURT_BOUNDARY_X :=
  ⟨rfl,
    (C2_grounded_bounds_amended Basketball.noKeys 0 Basketball.initialBallState
      rfl).2.1⟩

/-- C3 counterexample: for the ball at the court center the distance to the
nearest hoop is `15 ≥ 5` m, and the launch angle is `Math.PI / 2.9`, which is
`1800/29 ≈ 62.07` degrees — not exactly `62` degrees as claimed. -/
theorem C3_far_angle_counterexample :
    Basketball.launchDistSq 0 0 = 225 ∧
      Basketball.launchAngleDegrees 0 0 = 1800 / 29 ∧
      ¬Basketball.launchAngleDegrees 0 0 = 62 := by
  refine ⟨?_, ?_, ?_⟩ <;>
    norm_num [Basketball.launchDistSq, Basketball.launchAngleDegrees,
      Basketball.launchAngleOverPi, Basketball.nearestHoopX,
      Basketball.HOOP_X_POS, Basketball.HOOP_X_NEG]

/-- C3 (amended): at the instant of shooting the launch angle is
`Math.PI / 2.5` — exactly 72 degrees — when the horizontal distance to the
target hoop is below 5 m, and `Math.PI / 2.9` — exactly `1800/29 ≈ 62.07`
degrees, not 62 degrees — otherwise; and the angle is not recomputed
mid-flight: an in-flight tick with no basket fired and no ground contact
changes the velocity only by gravity on the y component. -/
theorem C3_launch_angle_amended :
    (∀ bx bz : ℚ, Basketball.launchDistSq bx bz < 25 →
        Basketball.launchAngleDegrees bx bz = 72) ∧
      (∀ bx bz : ℚ, ¬Basketball.launchDistSq bx bz < 25 →
        Basketball.launchAngleDegrees bx bz = 1800 / 29) ∧
      ((1800 / 29 : ℚ) ≠ 62) ∧
      (∀ (k : Basketball.Keys) (t : ℤ) (s : Basketball.BallState),
        s.shooting = true →
        (Basketball.update k t s).2.1 = none →
        ¬(Basketball.integrateFlight s).posY ≤
            Basketball.COURT_SURFACE_Y + Basketball.BALL_RADIUS + 0.01 →
        (Basketball.update k t s).1.velX = s.velX ∧
          (Basketball.update k t s).1.velZ = s.velZ ∧
          (Basketball.update k t s).1.velY =
            s.velY + Basketball.GRAVITY * Basketball.DT) := by
  refine ⟨?_, ?_, by norm_num, ?_⟩
  · intro bx bz h
    unfold Basketball.launchAngleDegrees Basketball.launchAngleOverPi
    rw [if_pos h]
    norm_num
  · intro bx bz h
    unfold Basketball.launchAngleDegrees Basketball.launchAngleOverPi
    rw [if_neg h]
    norm_num
  · intro k t s hsh hnone hy
    rw [update_flight_eq k t s hsh] at hnone ⊢
    obtain ⟨-, -, -, hvx, hvy, hvz, -, -, -, -⟩ := integrateFlight_fields s
    obtain ⟨-, hcbpy, -, -, hcbnone, -, -⟩ :=
      checkBasket_shape t (Basketball.integrateFlight s)
    have hnone' : (Basketball.checkBasket t (Basketball.integrateFlight s)).2 =
        none := hnone
    obtain ⟨hbvx, hbvy, hbvz, -, -⟩ := hcbnone hnone'
    have hy' : ¬(Basketball.checkBasket t (Basketball.integrateFlight s)).1.posY ≤
        Basketball.COURT_SURFACE_Y + Basketball.BALL_RADIUS + 0.01 := by
      rw [hcbpy]; exact hy
    obtain ⟨hnc, -⟩ :=
      checkGroundCollision_shape
        (Basketball.checkBasket t (Basketball.integrateFlight s)).1
    rw [hnc hy']
    exact ⟨hbvx.trans hvx, hbvz.trans hvz, hbvy.trans hvy⟩

/-- C3 witness: from `(13, 0)` the nearest hoop is at distance `2 < 5` m and
the launch angle is exactly 72 degrees. -/
theorem C3_launch_angle_witness :
    Basketball.launchDistSq 13 0 < 25 ∧
      Basketball.launchAngleDegrees 13 0 = 72 :=
  ⟨by norm_num [Basketball.launchDistSq, Basketball.nearestHoopX,
      Basketball.HOOP_X_POS, Basketball.HOOP_X_NEG],
    C3_launch_angle_amended.1 13 0
      (by norm_num [Basketball.launchDistSq, Basketball.nearestHoopX,
        Basketball.HOOP_X_POS, Basketball.HOOP_X_NEG])⟩

/-- C4: on every InFlight tick with ground contact
(`posY ≤ groundSurfaceY + ballRadius + 0.01` after integration and basket
check), `posY` is clamped to `groundSurfaceY + ballRadius`; then if some
velocity component magnitude exceeds 1 m/s the ball bounces
(`velY := -velY * 0.7`, `velX`, `velZ` scaled by `0.6`, mode still
InFlight), otherwise all velocity components become `0` and the mode becomes
Grounded.  The last conjunct shows every InFlight tick runs exactly this
ground check after the basket check. -/
theorem C4_ground_bounce_or_stop (s : Basketball.BallState)
    (h : s.posY ≤ Basketball.COURT_SURFACE_Y + Basketball.BALL_RADIUS + 0.01) :
    (Basketball.checkGroundCollision s).1.posY =
        Basketball.COURT_SURFACE_Y + Basketball.BALL_RADIUS ∧
      (Basketball.isMovingFastEnough s →
        (Basketball.checkGroundCollision s).1.velY =
            -s.velY * Basketball.BALL_BOUNCINESS ∧
          (Basketball.checkGroundCollision s).1.velX = s.velX * 0.6 ∧
          (Basketball.checkGroundCollision s).1.velZ = s.velZ * 0.6 ∧
          (Basketball.checkGroundCollision s).1.shooting = s.shooting) ∧
      (¬Basketball.isMovingFastEnough s →
        (Basketball.checkGroundCollision s).1.velX = 0 ∧
          (Basketball.checkGroundCollision s).1.velY = 0 ∧
          (Basketball.checkGroundCollision s).1.velZ = 0 ∧
          (Basketball.checkGroundCollision s).1.shooting = false) ∧
      (∀ (k : Basketball.Keys) (t : ℤ) (sf : Basketball.BallState),
        sf.shooting = true →
        Basketball.update k t sf =
          ((Basketball.checkGroundCollision
              (Basketball.checkBasket t (Basketball.integrateFlight sf)).1).1,
           (Basketball.checkBasket t (Basketball.integrateFlight sf)).2,
           (Basketball.checkGroundCollision
              (Basketball.checkBasket t (Basketball.integrateFlight sf)).1).2)) := by
  obtain ⟨-, hcontact, -⟩ := checkGroundCollision_shape s
  obtain ⟨hpy, hfast, hslow⟩ := hcontact h
  refine ⟨hpy, ?_, ?_, fun k t sf hsf => update_flight_eq k t sf hsf⟩
  · intro hf
    obtain ⟨h1, h2, h3, h4, -⟩ := hfast hf
    exact ⟨h1, h2, h3, h4⟩
  · intro hf
    obtain ⟨h1, h2, h3, h4, -, -⟩ := hslow hf
    exact ⟨h1, h2, h3, h4⟩

/-- C4 witness: a fast ground contact bounces with `velY := -velY * 0.7`. -/
theorem C4_ground_bounce_or_stop_witness :
    Basketball.sBounce.posY ≤
        Basketball.COURT_SURFACE_Y + Basketball.BALL_RADIUS + 0.01 ∧
      Basketball.isMovingFastEnough Basketball.sBounce ∧
      (Basketball.checkGroundCollision Basketball.sBounce).1.velY =
        -Basketball.sBounce.velY * Basketball.BALL_BOUNCINESS :=
  ⟨by norm_num [Basketball.sBounce, Basketball.COURT_SURFACE_Y,
      Basketball.BALL_RADIUS],
    by norm_num [Basketball.sBounce, Basketball.isMovingFastEnough,
      Basketball.VELOCITY_THRESHOLD],
    ((C4_ground_bounce_or_stop Basketball.sBounce
        (by norm_num [Basketball.sBounce, Basketball.COURT_SURFACE_Y,
          Basketball.BALL_RADIUS])).2.1
      (by norm_num [Basketball.sBounce, Basketball.isMovingFastEnough,
        Basketball.VELOCITY_THRESHOLD])).1⟩

/-- C6: a basket fired at the hoop at positive X credits the away team, a
basket at the hoop at negative X credits the home team, and crediting a team
adds exactly 2 points to that team's score and 1 to `shotsMade`, leaving the
other team's score and `shotsAttempted` unchanged. -/
theorem C6_basket_team_and_score :
    (∀ (t : ℤ) (s : Basketball.BallState) (tm : Basketball.Team),
        (Basketball.checkBasketHoop t Basketball.HOOP_X_POS s).2 = some tm →
        tm = Basketball.Team.away) ∧
      (∀ (t : ℤ) (s : Basketball.BallState) (tm : Basketball.Team),
        (Basketball.checkBasketHoop t Basketball.HOOP_X_NEG s).2 = some tm →
        tm = Basketball.Team.home) ∧
      (∀ sc : Score.ScoreState,
        (Score.applyOp sc (Score.teamOp Basketball.Team.away)).awayScore =
            sc.awayScore + 2 ∧
          (Score.applyOp sc (Score.teamOp Basketball.Team.away)).homeScore =
            sc.homeScore ∧
          (Score.applyOp sc (Score.teamOp Basketball.Team.away)).totalShotsMade =
            sc.totalShotsMade + 1 ∧
          (Score.applyOp sc
              (Score.teamOp Basketball.Team.away)).totalShotsAttempted =
            sc.totalShotsAttempted) ∧
      (∀ sc : Score.ScoreState,
        (Score.applyOp sc (Score.teamOp Basketball.Team.home)).homeScore =
            sc.homeScore + 2 ∧
          (Score.applyOp sc (Score.teamOp Basketball.Team.home)).awayScore =
            sc.awayScore ∧
          (Score.applyOp sc (Score.teamOp Basketball.Team.home)).totalShotsMade =
            sc.totalShotsMade + 1 ∧
          (Score.applyOp sc
              (Score.teamOp Basketball.Team.home)).totalShotsAttempted =
            sc.totalShotsAttempted) := by
  refine ⟨?_, ?_, fun sc => ⟨rfl, rfl, rfl, rfl⟩, fun sc => ⟨rfl, rfl, rfl, rfl⟩⟩
  · intro t s tm hsome
    rcases checkBasketHoop_cases t Basketball.HOOP_X_POS s with h | h <;>
      rw [h] at hsome
    · exact Option.noConfusion hsome
    · dsimp only at hsome
      norm_num [Basketball.HOOP_X_POS] at hsome
      exact hsome.symm
  · intro t s tm hsome
    rcases checkBasketHoop_cases t Basketball.HOOP_X_NEG s with h | h <;>
      rw [h] at hsome
    · exact Option.noConfusion hsome
    · dsimp only at hsome
      norm_num [Basketball.HOOP_X_NEG] at hsome
      exact hsome.symm

/-- C6 witness: a concrete basket at the `x = 15` hoop credits the away
team. -/
theorem C6_basket_team_and_score_witness :
    (Basketball.checkBasketHoop 5000 Basketball.HOOP_X_POS Basketball.sHoop).2 =
        some Basketball.Team.away ∧
      Basketball.Team.away = Basketball.Team.away :=
  ⟨by norm_num [Basketball.checkBasketHoop, Basketball.sHoop,
      Basketball.HOOP_X_POS, Basketball.BASKET_DETECTION_RADIUS,
      Basketball.BASKET_DETECTION_HEIGHT, Basketball.BALL_RADIUS],
    C6_basket_team_and_score.1 5000 Basketball.sHoop Basketball.Team.away
      (by norm_num [Basketball.checkBasketHoop, Basketball.sHoop,
        Basketball.HOOP_X_POS, Basketball.BASKET_DETECTION_RADIUS,
        Basketball.BASKET_DETECTION_HEIGHT, Basketball.BALL_RADIUS])⟩

/-- Helper: non-tick events never touch the basket cooldown timestamp. -/
lemma stepEv_nontick_lbt (s : Basketball.BallState) (e : Basketball.Ev)
    (h : e.isTick = false) :
    (Basketball.stepEv s e).lastBasketTime = s.lastBasketTime := by
  cases e with
  | tick k t => simp [Basketball.Ev.isTick] at h
  | resetBall => rfl
  | shoot vx vy vz =>
    show (if s.shooting = true then s
        else Basketball.shootStep vx vy vz s).lastBasketTime = s.lastBasketTime
    split <;> rfl

/-- Helper: along any run, the initial cooldown timestamp and the successive
made-basket firing times form a chain with gaps of at least the cooldown. -/
lemma fireTimes_chain (evs : List Basketball.Ev) : ∀ s : Basketball.BallState,
    List.Chain (fun a b => a + Basketball.BASKET_COOLDOWN_TIME ≤ b)
      s.lastBasketTime (Basketball.fireTimes s evs) := by
  induction evs with
  | nil => intro s; exact List.Chain.nil
  | cons e rest ih =>
    intro s
    cases e with
    | tick k t =>
      obtain ⟨-, -, -, hnone, hsome, -⟩ := tick_shape k t s
      by_cases hf : ((Basketball.update k t s).2.1).isSome = true
      · obtain ⟨tm, htm⟩ := Option.isSome_iff_exists.mp hf
        obtain ⟨hlbt, hcool⟩ := hsome tm htm
        have hft : Basketball.fireTimes s (Basketball.Ev.tick k t :: rest) =
            t :: Basketball.fireTimes
              (Basketball.stepEv s (Basketball.Ev.tick k t)) rest := by
          simp [Basketball.fireTimes, Basketball.evMadeTime, hf]
        rw [hft]
        refine List.Chain.cons hcool ?_
        have hc := ih (Basketball.stepEv s (Basketball.Ev.tick k t))
        rwa [show (Basketball.stepEv s
            (Basketball.Ev.tick k t)).lastBasketTime = t from hlbt] at hc
      · have hnone' : (Basketball.update k t s).2.1 = none := by
          rcases ho : (Basketball.update k t s).2.1 with _ | tm
          · rfl
          · rw [ho] at hf; simp at hf
        have hft : Basketball.fireTimes s (Basketball.Ev.tick k t :: rest) =
            Basketball.fireTimes
              (Basketball.stepEv s (Basketball.Ev.tick k t)) rest := by
          simp [Basketball.fireTimes, Basketball.evMadeTime, hnone']
        rw [hft]
        have hc := ih (Basketball.stepEv s (Basketball.Ev.tick k t))
        rwa [show (Basketball.stepEv s
            (Basketball.Ev.tick k t)).lastBasketTime = s.lastBasketTime from
          hnone hnone'] at hc
    | resetBall =>
      have hft : Basketball.fireTimes s (Basketball.Ev.resetBall :: rest) =
          Basketball.fireTimes (Basketball.stepEv s Basketball.Ev.resetBall)
            rest := by
        simp [Basketball.fireTimes, Basketball.evMadeTime]
      rw [hft]
      have hc := ih (Basketball.stepEv s Basketball.Ev.resetBall)
      rwa [stepEv_nontick_lbt s Basketball.Ev.resetBall rfl] at hc
    | shoot vx vy vz =>
      have hft : Basketball.fireTimes s (Basketball.Ev.shoot vx vy vz :: rest) =
          Basketball.fireTimes
            (Basketball.stepEv s (Basketball.Ev.shoot vx vy vz)) rest := by
        simp [Basketball.fireTimes, Basketball.evMadeTime]
      rw [hft]
      have hc := ih (Basketball.stepEv s (Basketball.Ev.shoot vx vy vz))
      rwa [stepEv_nontick_lbt s (Basketball.Ev.shoot vx vy vz) rfl] at hc

/-- C5: along any run of the game, any two made-basket events fire at
wall-clock times at least `BASKET_COOLDOWN_TIME = 2000` ms apart (pairwise,
same hoop or different hoops); and a basket detection attempted less than
2000 ms after the previously recorded basket does not fire. -/
theorem C5_basket_cooldown :
    (∀ (s : Basketball.BallState) (evs : List Basketball.Ev),
        List.Pairwise (fun a b => a + Basketball.BASKET_COOLDOWN_TIME ≤ b)
          (Basketball.fireTimes s evs)) ∧
      (∀ (k : Basketball.Keys) (t : ℤ) (s : Basketball.BallState),
        t - s.lastBasketTime < Basketball.BASKET_COOLDOWN_TIME →
        (Basketball.update k t s).2.1 = none) := by
  constructor
  · intro s evs
    haveI : IsTrans ℤ (fun a b => a + Basketball.BASKET_COOLDOWN_TIME ≤ b) := by
      constructor
      intro a b c hab hbc
      simp only [Basketball.BASKET_COOLDOWN_TIME] at *
      omega
    exact (List.Chain.pairwise (fireTimes_chain evs s)).of_cons
  · intro k t s hc
    cases hsh : s.shooting with
    | false => rw [update_grounded_eq k t s hsh]
    | true =>
      rw [update_flight_eq k t s hsh]
      show (Basketball.checkBasket t (Basketball.integrateFlight s)).2 = none
      rw [checkBasket_eq]
      rw [if_pos]
      exact hc

/-- C5 witness: with the cooldown still running, a tick fires no basket. -/
theorem C5_basket_cooldown_witness :
    (0 : ℤ) - Basketball.sFly.lastBasketTime <
        Basketball.BASKET_COOLDOWN_TIME ∧
      (Basketball.update Basketball.noKeys 0 Basketball.sFly).2.1 = none :=
  ⟨by norm_num [Basketball.sFly, Basketball.BASKET_COOLDOWN_TIME],
    C5_basket_cooldown.2 Basketball.noKeys 0 Basketball.sFly
      (by norm_num [Basketball.sFly, Basketball.BASKET_COOLDOWN_TIME])⟩

/-- Helper: over tick-only runs, once the shot-outcome flag is set it stays
set, so no further false-to-true transitions occur. -/
lemma flagFlips_zero_of_true : ∀ (evs : List Basketball.Ev),
    (∀ e ∈ evs, e.isTick = true) → ∀ s : Basketball.BallState,
    s.shotResultDetermined = true → Basketball.flagFlips s evs = 0 := by
  intro evs
  induction evs with
  | nil => intro _ s _; rfl
  | cons e rest ih =>
    intro hall s hf
    have he := hall e (List.mem_cons_self e rest)
    cases e with
    | resetBall => exact Bool.noConfusion he
    | shoot vx vy vz => exact Bool.noConfusion he
    | tick k t =>
      have hf' : (Basketball.stepEv s
          (Basketball.Ev.tick k t)).shotResultDetermined = true :=
        (tick_shape k t s).1 hf
      have hrest : ∀ e ∈ rest, e.isTick = true := fun e' he' =>
        hall e' (List.mem_cons_of_mem _ he')
      simp only [Basketball.flagFlips, hf, ih hrest _ hf']
      simp

/-- Helper: a flight followed only by ticks and ending Grounded flips the
shot-outcome flag exactly once. -/
lemma flight_flips_one : ∀ (evs : List Basketball.Ev),
    (∀ e ∈ evs, e.isTick = true) → ∀ s : Basketball.BallState,
    s.shooting = true → s.shotResultDetermined = false →
    (Basketball.runEv s evs).shooting = false →
    Basketball.flagFlips s evs = 1 := by
  intro evs
  induction evs with
  | nil =>
    intro _ s hsh hfl hend
    rw [show Basketball.runEv s [] = s from rfl, hsh] at hend
    exact Bool.noConfusion hend
  | cons e rest ih =>
    intro hall s hsh hfl hend
    have he := hall e (List.mem_cons_self e rest)
    cases e with
    | resetBall => exact Bool.noConfusion he
    | shoot vx vy vz => exact Bool.noConfusion he
    | tick k t =>
      have hrest : ∀ e ∈ rest, e.isTick = true := fun e' he' =>
        hall e' (List.mem_cons_of_mem _ he')
      have hend' : (Basketball.runEv
          (Basketball.stepEv s (Basketball.Ev.tick k t)) rest).shooting =
          false := hend
      obtain ⟨-, -, hstop, -, -, -⟩ := tick_shape k t s
      by_cases hf2 : (Basketball.stepEv s
          (Basketball.Ev.tick k t)).shotResultDetermined = true
      · have hsum : Basketball.flagFlips s (Basketball.Ev.tick k t :: rest) =
            1 + Basketball.flagFlips
              (Basketball.stepEv s (Basketball.Ev.tick k t)) rest := by
          simp only [Basketball.flagFlips, hfl, hf2]
          simp
        rw [hsum, flagFlips_zero_of_true rest hrest _ hf2]
      · simp only [Bool.not_eq_true] at hf2
        have hsh' : (Basketball.stepEv s
            (Basketball.Ev.tick k t)).shooting = true := by
          by_contra hc
          simp only [Bool.not_eq_true] at hc
          have h1 : (Basketball.stepEv s
              (Basketball.Ev.tick k t)).shotResultDetermined = true :=
            hstop hsh hc
          rw [hf2] at h1
          exact Bool.noConfusion h1
        have hsum : Basketball.flagFlips s (Basketball.Ev.tick k t :: rest) =
            Basketball.flagFlips
              (Basketball.stepEv s (Basketball.Ev.tick k t)) rest := by
          simp only [Basketball.flagFlips, hf2]
          simp
        rw [hsum]
        exact ih hrest _ hsh' hf2 hend'

/-- C1 counterexample: the claim quantifies over every completed flight,
including one ended by a ResetBall (`r`) event.  From the reachable
in-flight state `sFly` with an unresolved outcome, a ResetBall event ends
the flight (ball Grounded, a next Shoot would be accepted) with zero
shot-outcome events and zero flag transitions, not exactly one. -/
theorem C1_reset_aborts_flight_counterexample :
    Basketball.sFly.shooting = true ∧
      Basketball.sFly.shotResultDetermined = false ∧
      (Basketball.runEv Basketball.sFly
          [Basketball.Ev.resetBall]).shooting = false ∧
      Basketball.flagFlips Basketball.sFly [Basketball.Ev.resetBall] = 0 ∧
      (Basketball.stepEv
          (Basketball.runEv Basketball.sFly [Basketball.Ev.resetBall])
          (Basketball.Ev.shoot 1 5 0)).shooting = true := by
  refine ⟨rfl, rfl, rfl, ?_, rfl⟩
  rfl

/-- C1 (amended): for every flight not aborted by a ResetBall — from a state
just after an accepted Shoot (InFlight, outcome unresolved), through ticks
only, until the ball is next Grounded — the `shotResultDetermined` flag
transitions false-to-true exactly once; moreover no single tick fires both a
made-basket and a missed-shot event.  (A flight aborted by ResetBall ends
Grounded with zero outcome events; see the counterexample.) -/
theorem C1_flight_outcome_amended :
    (∀ (s : Basketball.BallState) (evs : List Basketball.Ev),
        (∀ e ∈ evs, e.isTick = true) →
        s.shooting = true → s.shotResultDetermined = false →
        (Basketball.runEv s evs).shooting = false →
        Basketball.flagFlips s evs = 1) ∧
      (∀ (k : Basketball.Keys) (t : ℤ) (s : Basketball.BallState),
        ¬(((Basketball.update k t s).2.1).isSome = true ∧
          (Basketball.update k t s).2.2 = true)) :=
  ⟨fun s evs hall hsh hfl hend => flight_flips_one evs hall s hsh hfl hend,
   fun k t s => (tick_shape k t s).2.2.2.2.2⟩

/-- C1 witness: a one-tick flight that lands and stops flips the flag
exactly once. -/
theorem C1_flight_outcome_witness :
    (Basketball.runEv Basketball.sLand
        [Basketball.Ev.tick Basketball.noKeys 0]).shooting = false ∧
      Basketball.flagFlips Basketball.sLand
        [Basketball.Ev.tick Basketball.noKeys 0] = 1 := by
  have hend : (Basketball.runEv Basketball.sLand
      [Basketball.Ev.tick Basketball.noKeys 0]).shooting = false := by
    norm_num [Basketball.runEv, Basketball.stepEv, Basketball.sLand,
      abs_of_pos, abs_of_nonneg, Basketball.update,
      Basketball.updateShootingPhysics, Basketball.integrateFlight,
      Basketball.checkBasket, Basketball.checkBasketHoop,
      Basketball.checkGroundCollision, Basketball.isMovingFastEnough,
      Basketball.bounceOffGround, Basketball.stopBall, Basketball.noKeys,
      Basketball.BALL_RADIUS, Basketball.COURT_SURFACE_Y,
      Basketball.VELOCITY_THRESHOLD, Basketball.PHYSICS_SPEED_MULTIPLIER,
      Basketball.GRAVITY, Basketball.DT, Basketball.BASKET_COOLDOWN_TIME,
      Basketball.BASKET_DETECTION_HEIGHT, Basketball.BASKET_DETECTION_RADIUS,
      Basketball.HOOP_X_POS, Basketball.HOOP_X_NEG,
      Basketball.BALL_BOUNCINESS]
  exact ⟨hend,
    C1_flight_outcome_amended.1 Basketball.sLand
      [Basketball.Ev.tick Basketball.noKeys 0]
      (fun e he => by rw [List.mem_singleton.mp he]; rfl) rfl rfl hend⟩

/-- C9: the per-tick rotation update is total even at exactly zero velocity:
the divisor used by `normalize()` is never zero (the `length() || 1` guard),
so no `0 / 0` NaN can arise; at zero velocity the rotation axis becomes the
zero vector and the angular increment is zero, so the wrapped rotation angle
is unchanged (the rotation is frozen) — no NaN is ever stored into the
rotation axis or angle. -/
theorem C9_rotation_never_nan :
    (∀ v : Spin.RVec3, Spin.normDivisor v ≠ 0) ∧
      (∀ c : ℝ, Spin.updateRotationStep ⟨0, 0, 0⟩ c =
        (⟨0, 0, 0⟩, Spin.jsMod c (2 * Real.pi))) ∧
      (∀ c : ℝ, 0 ≤ c → c < 2 * Real.pi →
        (Spin.updateRotationStep ⟨0, 0, 0⟩ c).2 = c) := by
  have hzero : ∀ c : ℝ, Spin.updateRotationStep ⟨0, 0, 0⟩ c =
      (⟨0, 0, 0⟩, Spin.jsMod c (2 * Real.pi)) := by
    intro c
    unfold Spin.updateRotationStep Spin.threeNormalize Spin.normDivisor
      Spin.vlength Spin.cross
    norm_num
  refine ⟨?_, hzero, ?_⟩
  · intro v
    unfold Spin.normDivisor
    split
    · exact one_ne_zero
    · assumption
  · intro c hc0 hc2
    rw [hzero c]
    show Spin.jsMod c (2 * Real.pi) = c
    unfold Spin.jsMod
    have hpi : (0 : ℝ) < 2 * Real.pi := by positivity
    have hfl : ⌊c / (2 * Real.pi)⌋ = 0 := by
      rw [Int.floor_eq_zero_iff]
      constructor
      · positivity
      · rw [div_lt_one hpi]
        exact hc2
    rw [hfl]
    ring

/-- C9 witness: a nonzero velocity has a nonzero divisor, and at zero
velocity with rotation angle `0` the angle stays `0`. -/
theorem C9_rotation_never_nan_witness :
    Spin.normDivisor ⟨3, 0, 4⟩ ≠ 0 ∧
      (Spin.updateRotationStep ⟨0, 0, 0⟩ 0).2 = 0 :=
  ⟨C9_rotation_never_nan.1 ⟨3, 0, 4⟩,
    C9_rotation_never_nan.2.2 0 le_rfl (by positivity)⟩

end Theorems
